import Mathlib

/-!
Verification of the style-transform and ephemeral-lookup engine of the
stylish-name bot (src/style.py).

The embedding models, faithfully to the Python source:
  - the MD5 digest (used by TextStorage.store_text through hashlib.md5;
    implemented here in full over Nat arithmetic mod 2^32, and checked
    against the standard test vectors),
  - TextStorage (a process-wide dict, modelled as explicit state passing
    over an association list with overwrite-on-insert semantics),
  - FontStyles (the character translation tables, apply_font, apply_style,
    and Python str.format restricted to the auto-numbered placeholder
    fields actually used by the catalog),
  - the pagination arithmetic of BotHandlers.show_styles_page,
  - BotHandlers._generate_styled_text.

Python strings are modelled as Lean String (one Char per code point, as in
Python 3); machine words of MD5 are Nat reduced mod 2^32.
-/

set_option maxRecDepth 100000

namespace StyleBot

/-- The left-brace character, written via its code point. -/
def lbrace : Char := Char.ofNat 123

/-- The right-brace character, written via its code point. -/
def rbrace : Char := Char.ofNat 125

/-! ### MD5 (hashlib.md5), over Nat arithmetic mod 2^32 -/

/-- 2^32, the word modulus of MD5. -/
def M32 : Nat := 4294967296

/-- 32-bit complement of a word. -/
def not32 (x : Nat) : Nat := 4294967295 - (x % M32)

/-- 32-bit left rotation. -/
def rotl32 (x n : Nat) : Nat :=
  ((x % M32) * 2 ^ n + (x % M32) / 2 ^ (32 - n)) % M32

/-- The 64 MD5 round constants, floor(2^32 * abs(sin(i+1))). -/
def KTABLE : List Nat :=
  [0xd76aa478, 0xe8c7b756, 0x242070db, 0xc1bdceee,
   0xf57c0faf, 0x4787c62a, 0xa8304613, 0xfd469501,
   0x698098d8, 0x8b44f7af, 0xffff5bb1, 0x895cd7be,
   0x6b901122, 0xfd987193, 0xa679438e, 0x49b40821,
   0xf61e2562, 0xc040b340, 0x265e5a51, 0xe9b6c7aa,
   0xd62f105d, 0x02441453, 0xd8a1e681, 0xe7d3fbc8,
   0x21e1cde6, 0xc33707d6, 0xf4d50d87, 0x455a14ed,
   0xa9e3e905, 0xfcefa3f8, 0x676f02d9, 0x8d2a4c8a,
   0xfffa3942, 0x8771f681, 0x6d9d6122, 0xfde5380c,
   0xa4beea44, 0x4bdecfa9, 0xf6bb4b60, 0xbebfbc70,
   0x289b7ec6, 0xeaa127fa, 0xd4ef3085, 0x04881d05,
   0xd9d4d039, 0xe6db99e5, 0x1fa27cf8, 0xc4ac5665,
   0xf4292244, 0x432aff97, 0xab9423a7, 0xfc93a039,
   0x655b59c3, 0x8f0ccc92, 0xffeff47d, 0x85845dd1,
   0x6fa87e4f, 0xfe2ce6e0, 0xa3014314, 0x4e0811a1,
   0xf7537e82, 0xbd3af235, 0x2ad7d2bb, 0xeb86d391]

/-- The 64 MD5 per-round left-rotation amounts. -/
def SHIFTS : List Nat :=
  [7, 12, 17, 22, 7, 12, 17, 22, 7, 12, 17, 22, 7, 12, 17, 22,
   5, 9, 14, 20, 5, 9, 14, 20, 5, 9, 14, 20, 5, 9, 14, 20,
   4, 11, 16, 23, 4, 11, 16, 23, 4, 11, 16, 23, 4, 11, 16, 23,
   6, 10, 15, 21, 6, 10, 15, 21, 6, 10, 15, 21, 6, 10, 15, 21]

/-- Working state of MD5: four 32-bit words. -/
structure MD5State where
  a : Nat
  b : Nat
  c : Nat
  d : Nat

/-- Little-endian 32-bit word number j of a 64-byte block. -/
def wordAt (block : List Nat) (j : Nat) : Nat :=
  block.getD (4 * j) 0 + 256 * block.getD (4 * j + 1) 0 +
    65536 * block.getD (4 * j + 2) 0 + 16777216 * block.getD (4 * j + 3) 0

/-- One of the 64 MD5 rounds on a block. -/
def md5Round (block : List Nat) (st : MD5State) (i : Nat) : MD5State :=
  let f :=
    if i < 16 then Nat.lor (Nat.land st.b st.c) (Nat.land (not32 st.b) st.d)
    else if i < 32 then Nat.lor (Nat.land st.d st.b) (Nat.land (not32 st.d) st.c)
    else if i < 48 then Nat.xor st.b (Nat.xor st.c st.d)
    else Nat.xor st.c (Nat.lor st.b (not32 st.d))
  let g :=
    if i < 16 then i
    else if i < 32 then (5 * i + 1) % 16
    else if i < 48 then (3 * i + 5) % 16
    else (7 * i) % 16
  let f2 := (f + st.a + KTABLE.getD i 0 + wordAt block g) % M32
  ⟨st.d, (st.b + rotl32 f2 (SHIFTS.getD i 0)) % M32, st.b, st.c⟩

/-- Process one padded 64-byte block, adding the round result to the hash. -/
def md5Block (h : MD5State) (block : List Nat) : MD5State :=
  let r := (List.range 64).foldl (md5Round block) h
  ⟨(h.a + r.a) % M32, (h.b + r.b) % M32, (h.c + r.c) % M32, (h.d + r.d) % M32⟩

/-- MD5 padding: 0x80, zeros to 56 mod 64, then the bit length in 8
little-endian bytes. -/
def padBytes (msg : List Nat) : List Nat :=
  let len := msg.length
  let k := (64 + 55 - len % 64) % 64
  let bitLen := (8 * len) % 2 ^ 64
  msg ++ [0x80] ++ List.replicate k 0 ++
    ((List.range 8).map fun j => bitLen / 256 ^ j % 256)

/-- Split a list into 64-element chunks (the length is a multiple of 64
after padding); fuel is the chunk count. -/
def chunksAux {α : Type} : Nat → List α → List (List α)
  | 0, _ => []
  | fuel + 1, l => l.take 64 :: chunksAux fuel (l.drop 64)

/-- The 64-byte blocks of a padded message. -/
def chunks (l : List Nat) : List (List Nat) := chunksAux (l.length / 64) l

/-- The four bytes of a 32-bit word, little-endian. -/
def wordBytes (x : Nat) : List Nat :=
  [x % 256, x / 256 % 256, x / 65536 % 256, x / 16777216 % 256]

/-- UTF-8 encoding of one code point (Python str.encode). -/
def utf8Char (c : Char) : List Nat :=
  let n := c.toNat
  if n < 0x80 then [n]
  else if n < 0x800 then [0xC0 + n / 0x40, 0x80 + n % 0x40]
  else if n < 0x10000 then
    [0xE0 + n / 0x1000, 0x80 + n / 0x40 % 0x40, 0x80 + n % 0x40]
  else
    [0xF0 + n / 0x40000, 0x80 + n / 0x1000 % 0x40, 0x80 + n / 0x40 % 0x40,
     0x80 + n % 0x40]

/-- UTF-8 bytes of a string (Python text.encode()). -/
def utf8Bytes (s : String) : List Nat := s.data.flatMap utf8Char

/-- The 16 digest bytes of MD5 over a byte list. -/
def md5Digest (msg : List Nat) : List Nat :=
  let final := (chunks (padBytes msg)).foldl md5Block
    ⟨0x67452301, 0xefcdab89, 0x98badcfe, 0x10325476⟩
  wordBytes final.a ++ wordBytes final.b ++ wordBytes final.c ++ wordBytes final.d

/-- Lowercase hex digits. -/
def hexDigits : List Char := "0123456789abcdef".data

/-- Two lowercase hex characters of a byte. -/
def byteHex (b : Nat) : List Char :=
  [hexDigits.getD (b / 16) '0', hexDigits.getD (b % 16) '0']

/-- hashlib.md5(s.encode()).hexdigest(): the 32-character lowercase hex
digest of the UTF-8 bytes of s. -/
def md5hex (s : String) : String :=
  ⟨(md5Digest (utf8Bytes s)).flatMap byteHex⟩

/-- MD5 agrees with the standard test vector for the empty message. -/
theorem md5hex_empty : md5hex "" = "d41d8cd98f00b204e9800998ecf8427e" := by
  decide

/-- MD5 agrees with the standard test vector for "abc". -/
theorem md5hex_abc : md5hex "abc" = "900150983cd24fb0d6963f7d28e17f72" := by
  decide

/-! ### TextStorage (src/style.py, class TextStorage)

The process-wide dict TextStorage._storage is modelled as an association
list passed as explicit state, with first-match lookup and
overwrite-on-insert (Python dict assignment). -/

/-- The TextStorage._storage dict: fingerprint to stored text. -/
abbrev Storage := List (String × String)

/-- Python dict assignment d[k] = v: overwrite the entry for k if present,
otherwise append it. -/
def dinsert (k v : String) : Storage → Storage
  | [] => [(k, v)]
  | (k', v') :: rest => if k' = k then (k, v) :: rest else (k', v') :: dinsert k v rest

/-- Python dict lookup d.get(k): the value stored for k, if any. -/
def dget : Storage → String → Option String
  | [], _ => none
  | (k', v') :: rest, k => if k' = k then some v' else dget rest k

/-- The fingerprint of a stored text:
hashlib.md5(text.encode()).hexdigest()[:16]. -/
def fingerprint (text : String) : String := ⟨(md5hex text).data.take 16⟩

/-- TextStorage.store_text: text_hash = hashlib.md5(text.encode()).hexdigest()[:16],
then cls._storage[text_hash] = text, and return text_hash. -/
def store_text (st : Storage) (text : String) : Storage × String :=
  (dinsert (fingerprint text) text st, fingerprint text)

/-- TextStorage.get_text: return cls._storage.get(text_hash, ""). -/
def get_text (st : Storage) (text_hash : String) : String :=
  (dget st text_hash).getD ""

/-- get_text with the dict state threaded through, to state that a lookup
leaves the storage unchanged. -/
def get_text_st (st : Storage) (text_hash : String) : String × Storage :=
  ((dget st text_hash).getD "", st)

/-! ### FontStyles: alphabets and translation tables -/

/-- FontStyles.NORMAL, the canonical covering alphabet. -/
def NORMAL : String :=
  "abcdefghijklmnopqrstuvwxyzABCDEFGHIJKLMNOPQRSTUVWXYZ0123456789"

/-- The target alphabet of the bold font (FontStyles.FONTS, key bold). -/
def boldChars : String :=
  "𝗮𝗯𝗰𝗱𝗲𝗳𝗴𝗵𝗶𝗷𝗸𝗹𝗺𝗻𝗼𝗽𝗾𝗿𝘀𝘁𝘂𝘃𝘄𝘅𝘆𝘇𝗔𝗕𝗖𝗗𝗘𝗙𝗚𝗛𝗜𝗝𝗞𝗟𝗠𝗡𝗢𝗣𝗤𝗥𝗦𝗧𝗨𝗩𝗪𝗫𝗬𝗭𝟬𝟭𝟮𝟯𝟰𝟱𝟲𝟳𝟴𝟵"

/-- The target alphabet of the italic font (FontStyles.FONTS, key italic). -/
def italicChars : String :=
  "𝘢𝘣𝘤𝘥𝘦𝘧𝘨𝘩𝘪𝘫𝘬𝘭𝘮𝘯𝘰𝘱𝘲𝘳𝘴𝘵𝘶𝘷𝘸𝘹𝘺𝘻𝘈𝘉𝘊𝘋𝘌𝘍𝘎𝘏𝘐𝘑𝘒𝘓𝘔𝘕𝘖𝘗𝘘𝘙𝘚𝘛𝘜𝘝𝘞𝘟𝚈𝚉0123456789"

/-- FontStyles.FONTS: the font catalog, in source order. -/
def FONTS : List (String × String) := [("bold", boldChars), ("italic", italicChars)]

/-- The source alphabet string of FontStyles.SMALL_CAPS_FONT (written out
separately in the source; it coincides with NORMAL). -/
def smallCapsSrc : String :=
  "abcdefghijklmnopqrstuvwxyzABCDEFGHIJKLMNOPQRSTUVWXYZ0123456789"

/-- The target alphabet string of FontStyles.SMALL_CAPS_FONT. -/
def smallCapsDst : String :=
  "ᴀʙᴄᴅᴇғɢʜɪᴊᴋʟᴍɴᴏᴘǫʀsᴛᴜᴠᴡxʏᴢᴀʙᴄᴅᴇғɢʜɪᴊᴋʟᴍɴᴏᴘǫʀsᴛᴜᴠᴡxʏᴢ0123456789"

/-- str.maketrans(src, dst): the character translation table pairing the
two alphabets positionally. -/
def mkTable (src dst : String) : List (Char × Char) := src.data.zip dst.data

/-- FontStyles.SMALL_CAPS_FONT. -/
def SMALL_CAPS_FONT : List (Char × Char) := mkTable smallCapsSrc smallCapsDst

/-- FontStyles.TRANSLATION_TABLES after FontStyles._init_translation_tables:
one table per font whose target alphabet has the same length as NORMAL. -/
def TRANSLATION_TABLES : List (String × List (Char × Char)) :=
  FONTS.filterMap fun p =>
    if NORMAL.length = p.2.length then some (p.1, mkTable NORMAL p.2) else none

/-- Python dict .get on the translation-table cache. -/
def lookupTable : List (String × List (Char × Char)) → String → Option (List (Char × Char))
  | [], _ => none
  | (k, v) :: rest, n => if k = n then some v else lookupTable rest n

/-- str.translate on one character: a mapped character is replaced, an
unmapped character passes through unchanged. -/
def trChar : List (Char × Char) → Char → Char
  | [], c => c
  | (a, b) :: rest, c => if c = a then b else trChar rest c

/-- str.translate over a whole string. -/
def translateStr (tbl : List (Char × Char)) (s : String) : String :=
  ⟨s.data.map (trChar tbl)⟩

/-- FontStyles.apply_font with the translation tables initialised (the pure
rendering; the lazy cache initialisation is modelled by apply_font_st
below): small_caps uses SMALL_CAPS_FONT, a known font uses its table, an
unknown font returns the text unchanged. -/
def apply_font (text : String) (font_name : String) : String :=
  if font_name = "small_caps" then translateStr SMALL_CAPS_FONT text
  else
    match lookupTable TRANSLATION_TABLES font_name with
    | some tbl => translateStr tbl text
    | none => text

/-! ### Python str.format with one positional argument

The catalog templates use only plain auto-numbered placeholder fields
(open brace immediately followed by close brace) and no other field syntax,
so the model covers exactly: ordinary characters, doubled-brace escapes,
auto-numbered empty fields, and the corresponding ValueError and IndexError
conditions; any other field syntax is mapped to an unsupportedField error. -/

/-- The failure modes of template.format(text) on the template shapes the
program can reach. -/
inductive FormatError
  /-- ValueError: single open brace at the end of the format string. -/
  | singleLbrace
  /-- ValueError: single close brace in the format string. -/
  | singleRbrace
  /-- A replacement field other than a plain auto-numbered one. -/
  | unsupportedField
  /-- IndexError: a second auto-numbered field with only one argument. -/
  | indexOutOfRange
  deriving DecidableEq

/-- Scanner of template.format(arg): used counts the auto-numbered fields
already substituted (Python supplies a single positional argument, so the
second field raises IndexError). -/
def pyFormatAux (arg : List Char) : Nat → List Char → Except FormatError (List Char)
  | _, [] => .ok []
  | _, [c] =>
    if c = lbrace then .error .singleLbrace
    else if c = rbrace then .error .singleRbrace
    else .ok [c]
  | used, c :: d :: rest =>
    if c = lbrace then
      if d = lbrace then (pyFormatAux arg used rest).map (lbrace :: ·)
      else if d = rbrace then
        if used = 0 then (pyFormatAux arg 1 rest).map (arg ++ ·)
        else .error .indexOutOfRange
      else .error .unsupportedField
    else if c = rbrace then
      if d = rbrace then (pyFormatAux arg used rest).map (rbrace :: ·)
      else .error .singleRbrace
    else (pyFormatAux arg used (d :: rest)).map (c :: ·)

/-- template.format(arg) with one positional argument. -/
def pyFormat (template : String) (arg : String) : Except FormatError String :=
  (pyFormatAux arg.data 0 template.data).map fun l => ⟨l⟩

instance : DecidableEq (Except FormatError String)
  | .ok a, .ok b =>
    if h : a = b then isTrue (by rw [h]) else isFalse (by simp [h])
  | .ok _, .error _ => isFalse (by simp)
  | .error _, .ok _ => isFalse (by simp)
  | .error a, .error b =>
    if h : a = b then isTrue (by rw [h]) else isFalse (by simp [h])

/-! ### FontStyles.apply_style and BotHandlers._generate_styled_text -/

/-- The style_template argument of apply_style: a string for the font,
decorative and art branches, a (font name, decoration) pair for the mixed
branch, or Python None (the default). -/
inductive StyleTemplate
  | str (s : String)
  | pair (font decor : String)
  | nothing
  deriving DecidableEq

/-- Python truthiness of a style_template value: an empty string and None
are falsy, a pair (nonempty tuple) is truthy. -/
def truthy : StyleTemplate → Bool
  | .str s => s ≠ ""
  | .pair _ _ => true
  | .nothing => false

/-- FontStyles.apply_style.  Branches whose template shape does not match
the dispatch string (a pair under font, a string under mixed, etc.) do
not occur in the program and are modelled as returning the text unchanged.
The format errors of the decorative, art and mixed branches surface as
error results. -/
def apply_style (text : String) (style_type : String) (t : StyleTemplate) :
    Except FormatError String :=
  if style_type = "font" ∧ truthy t then
    match t with
    | .str s => .ok (apply_font text s)
    | _ => .ok text
  else if style_type = "decorative" ∧ truthy t then
    match t with
    | .str s => pyFormat s text
    | _ => .ok text
  else if style_type = "art" ∧ truthy t then
    match t with
    | .str s => pyFormat s text
    | _ => .ok text
  else if style_type = "mixed" ∧ truthy t then
    match t with
    | .pair font_name decor => pyFormat decor (apply_font text font_name)
    | _ => .ok text
  else .ok text

/-- BotHandlers._generate_styled_text: the per-category dispatch used when
building the style buttons (no truthiness guards here).  Mismatched
template shapes again do not occur and return the name unchanged. -/
def generate_styled_text (name : String) (category : String) (style : StyleTemplate) :
    Except FormatError String :=
  if category = "fonts" then
    match style with
    | .str s => .ok (apply_font name s)
    | _ => .ok name
  else if category = "decorative" then
    match style with
    | .str s => pyFormat s name
    | _ => .ok name
  else if category = "art" then
    match style with
    | .str s => pyFormat s name
    | _ => .ok name
  else if category = "mixed" then
    match style with
    | .pair font_name decor => pyFormat decor (apply_font name font_name)
    | _ => .ok name
  else .ok name

/-- FontStyles.DECORATIVE_STYLES, in source order. -/
def DECORATIVE_STYLES : List String :=
  ["꧁\x7b\x7d꧂", "⫷\x7b\x7d⫸", "😈\x7b\x7d😈", "👑\x7b\x7d👑"]

/-! ### The lazy translation-table cache as explicit state

FontStyles.TRANSLATION_TABLES is a mutable class attribute filled on the
first apply_font call; to settle purity claims it is passed around as
explicit state. -/

/-- The type of the FontStyles.TRANSLATION_TABLES class attribute. -/
abbrev Tables := List (String × List (Char × Char))

/-- The cache after the initialisation check at the top of apply_font:
an empty (falsy) cache is filled by _init_translation_tables. -/
def tablesAfter (st : Tables) : Tables :=
  if st.isEmpty then TRANSLATION_TABLES else st

/-- FontStyles.apply_font with the table cache passed as explicit state. -/
def apply_font_st (st : Tables) (text : String) (font_name : String) :
    String × Tables :=
  if font_name = "small_caps" then (translateStr SMALL_CAPS_FONT text, tablesAfter st)
  else
    match lookupTable (tablesAfter st) font_name with
    | some tbl => (translateStr tbl text, tablesAfter st)
    | none => (text, tablesAfter st)

/-- FontStyles.apply_style with the table cache passed as explicit state
(only the font and mixed branches touch the cache). -/
def apply_style_st (st : Tables) (text : String) (style_type : String)
    (t : StyleTemplate) : Except FormatError String × Tables :=
  if style_type = "font" ∧ truthy t then
    match t with
    | .str s => (.ok (apply_font_st st text s).1, (apply_font_st st text s).2)
    | _ => (.ok text, st)
  else if style_type = "decorative" ∧ truthy t then
    match t with
    | .str s => (pyFormat s text, st)
    | _ => (.ok text, st)
  else if style_type = "art" ∧ truthy t then
    match t with
    | .str s => (pyFormat s text, st)
    | _ => (.ok text, st)
  else if style_type = "mixed" ∧ truthy t then
    match t with
    | .pair font_name decor =>
      (pyFormat decor (apply_font_st st text font_name).1,
       (apply_font_st st text font_name).2)
    | _ => (.ok text, st)
  else (.ok text, st)

/-- The cache states reachable by some sequence of renders starting from
the process-initial empty cache. -/
inductive ReachableTables : Tables → Prop
  | init : ReachableTables []
  | step (text style_type : String) (t : StyleTemplate) {st : Tables} :
      ReachableTables st → ReachableTables (apply_style_st st text style_type t).2

/-! ### Pagination (BotHandlers.show_styles_page) -/

/-- ITEMS_PER_PAGE = 10. -/
def ITEMS_PER_PAGE : Nat := 10

/-- total_pages = max(1, (total + ITEMS_PER_PAGE - 1) // ITEMS_PER_PAGE). -/
def total_pages_calc (total : Nat) : Nat :=
  max 1 ((total + ITEMS_PER_PAGE - 1) / ITEMS_PER_PAGE)

/-- The pagination core of BotHandlers.show_styles_page: stored is the
session's current_page entry (absent on a fresh session, read with default
1), page the requested page number (Python int, 0 is falsy).  Returns the
displayed page number together with the page's slice of styles, and the
updated stored page.  Mirrors: if page: current_page = page else page =
current_page or 1; total_pages = max(1, ceil); page = max(1, min(page,
total_pages)); styles[start:start+ITEMS_PER_PAGE]. -/
def show_styles_page {α : Type} (styles : List α) (stored : Option Int)
    (page : Int) : (Nat × List α) × Option Int :=
  let stored' := if page ≠ 0 then some page else stored
  let p1 : Int := if page ≠ 0 then page else stored.getD 1
  let total_pages := total_pages_calc styles.length
  let p2 : Nat := (max 1 (min p1 (total_pages : Int))).toNat
  ((p2, (styles.drop ((p2 - 1) * ITEMS_PER_PAGE)).take ITEMS_PER_PAGE), stored')

/-! ### Spec-side helper notions -/

/-- Whether pat occurs at the head of l (helper for counting substring
occurrences; formalises the claim's notion of contiguous substring). -/
def matchesAt (pat l : List Char) : Bool := l.take pat.length = pat

/-- Number of positions of l at which pat occurs as a contiguous substring
(formalises the claim's "contains s as a substring exactly once"). -/
def countOccs (pat : List Char) : List Char → Nat
  | [] => if pat = [] then 1 else 0
  | c :: rest => (if matchesAt pat (c :: rest) then 1 else 0) + countOccs pat rest

/-- A template fragment with no brace characters (plain frame text). -/
def braceFree (l : List Char) : Prop := lbrace ∉ l ∧ rbrace ∉ l

instance (l : List Char) : Decidable (braceFree l) := by
  unfold braceFree; infer_instance

/-- The positionally swapped table, the inverse character mapping of a
translation table. -/
def invTable (tbl : List (Char × Char)) : List (Char × Char) :=
  tbl.map Prod.swap

/-! ### Lemmas about the dict model -/

/-- Looking up the key just inserted returns the inserted value. -/
theorem dget_dinsert_self (st : Storage) (k v : String) :
    dget (dinsert k v st) k = some v := by
  induction st with
  | nil => simp [dinsert, dget]
  | cons p rest ih =>
    obtain ⟨k', v'⟩ := p
    by_cases h : k' = k
    · simp [dinsert, h, dget]
    · simp [dinsert, h, dget, ih]

/-- Inserting under one key leaves every other key's lookup unchanged. -/
theorem dget_dinsert_ne (st : Storage) (h k v : String) (hne : k ≠ h) :
    dget (dinsert h v st) k = dget st k := by
  have hne' : ¬h = k := fun he => hne he.symm
  induction st with
  | nil => simp [dinsert, dget, hne']
  | cons p rest ih =>
    obtain ⟨k', v'⟩ := p
    by_cases hk : k' = h
    · subst hk
      simp [dinsert, dget, hne']
    · by_cases hk2 : k' = k
      · subst hk2
        simp [dinsert, hk, dget]
      · simp [dinsert, hk, dget, hk2, ih]

/-! ### Lemmas about the str.format model -/

/-- Scanning step for an ordinary (non-brace) character before a nonempty
tail: the character is emitted and scanning continues. -/
theorem pyFormatAux_cons_ordinary (arg : List Char) (used : Nat) (c : Char)
    (hc1 : c ≠ lbrace) (hc2 : c ≠ rbrace) (l : List Char) (hl : l ≠ []) :
    pyFormatAux arg used (c :: l) = (pyFormatAux arg used l).map (c :: ·) := by
  cases l with
  | nil => exact absurd rfl hl
  | cons d rest => simp [pyFormatAux, hc1, hc2]

/-- A brace-free fragment formats to itself, whatever the field counter. -/
theorem pyFormatAux_braceFree (arg : List Char) :
    ∀ l : List Char, braceFree l → ∀ used, pyFormatAux arg used l = .ok l := by
  intro l
  induction l with
  | nil => intro _ _; rfl
  | cons c rest ih =>
    intro hb used
    have hc1 : c ≠ lbrace := fun he => hb.1 (he ▸ List.mem_cons_self c rest)
    have hc2 : c ≠ rbrace := fun he => hb.2 (he ▸ List.mem_cons_self c rest)
    have hb' : braceFree rest :=
      ⟨fun hm => hb.1 (List.mem_cons_of_mem _ hm),
       fun hm => hb.2 (List.mem_cons_of_mem _ hm)⟩
    cases rest with
    | nil => simp [pyFormatAux, hc1, hc2]
    | cons d rest' =>
      rw [pyFormatAux_cons_ordinary arg used c hc1 hc2 _ (by simp), ih hb' used]
      rfl

/-- Scanning a single-field template substitutes the argument at the field
and continues on the tail with the counter advanced. -/
theorem pyFormatAux_subst (arg post : List Char) :
    ∀ pre : List Char, braceFree pre →
      pyFormatAux arg 0 (pre ++ lbrace :: rbrace :: post) =
        (pyFormatAux arg 1 post).map fun l => pre ++ arg ++ l := by
  intro pre
  induction pre with
  | nil =>
    intro _
    have hlr : rbrace ≠ lbrace := by decide
    simp only [List.nil_append]
    cases hx : pyFormatAux arg 1 post <;> simp [pyFormatAux, hlr, hx, Except.map]
  | cons c pre' ih =>
    intro hb
    have hc1 : c ≠ lbrace := fun he => hb.1 (he ▸ List.mem_cons_self c pre')
    have hc2 : c ≠ rbrace := fun he => hb.2 (he ▸ List.mem_cons_self c pre')
    have hb' : braceFree pre' :=
      ⟨fun hm => hb.1 (List.mem_cons_of_mem _ hm),
       fun hm => hb.2 (List.mem_cons_of_mem _ hm)⟩
    rw [List.cons_append,
      pyFormatAux_cons_ordinary arg 0 c hc1 hc2 _ (by simp), ih hb']
    cases pyFormatAux arg 1 post <;> simp [Except.map]

/-- With the single positional argument already consumed, a second field
raises IndexError. -/
theorem pyFormatAux_second_field (arg post : List Char) :
    ∀ mid : List Char, braceFree mid →
      pyFormatAux arg 1 (mid ++ lbrace :: rbrace :: post) = .error .indexOutOfRange := by
  intro mid
  induction mid with
  | nil =>
    intro _
    have hlr : rbrace ≠ lbrace := by decide
    simp [pyFormatAux, hlr]
  | cons c mid' ih =>
    intro hb
    have hc1 : c ≠ lbrace := fun he => hb.1 (he ▸ List.mem_cons_self c mid')
    have hc2 : c ≠ rbrace := fun he => hb.2 (he ▸ List.mem_cons_self c mid')
    have hb' : braceFree mid' :=
      ⟨fun hm => hb.1 (List.mem_cons_of_mem _ hm),
       fun hm => hb.2 (List.mem_cons_of_mem _ hm)⟩
    rw [List.cons_append,
      pyFormatAux_cons_ordinary arg 1 c hc1 hc2 _ (by simp), ih hb']
    rfl

/-- template.format(s) on a template with exactly one field: frame
characters are kept and s is substituted verbatim at the field. -/
theorem pyFormat_one_field (s : String) (pre post : List Char)
    (h1 : braceFree pre) (h2 : braceFree post) :
    pyFormat ⟨pre ++ lbrace :: rbrace :: post⟩ s = .ok ⟨pre ++ s.data ++ post⟩ := by
  unfold pyFormat
  show (pyFormatAux s.data 0 (pre ++ lbrace :: rbrace :: post)).map _ = _
  rw [pyFormatAux_subst _ _ _ h1, pyFormatAux_braceFree _ _ h2 1]
  rfl

/-- template.format(s) on a brace-free template returns the template
itself: the argument is dropped without an error. -/
theorem pyFormat_zero_field (s : String) (t : List Char) (hb : braceFree t) :
    pyFormat ⟨t⟩ s = .ok ⟨t⟩ := by
  unfold pyFormat
  show (pyFormatAux s.data 0 t).map _ = _
  rw [pyFormatAux_braceFree _ _ hb 0]
  rfl

/-- template.format(s) on a template with two (or more) fields raises
IndexError. -/
theorem pyFormat_two_fields (s : String) (pre mid post : List Char)
    (h1 : braceFree pre) (h2 : braceFree mid) :
    pyFormat ⟨pre ++ lbrace :: rbrace :: (mid ++ lbrace :: rbrace :: post)⟩ s =
      .error .indexOutOfRange := by
  unfold pyFormat
  show (pyFormatAux s.data 0 _).map _ = _
  rw [pyFormatAux_subst _ _ _ h1, pyFormatAux_second_field _ _ _ h2]
  rfl

/-! ### Lemmas about the translation tables -/

/-- A character not mapped by a table passes through unchanged. -/
theorem trChar_eq_self {tbl : List (Char × Char)} {c : Char}
    (h : ∀ p ∈ tbl, p.1 ≠ c) : trChar tbl c = c := by
  induction tbl with
  | nil => rfl
  | cons p rest ih =>
    obtain ⟨a, b⟩ := p
    have ha : ¬c = a := fun he => h (a, b) (List.mem_cons_self _ _) he.symm
    simp only [trChar, ha, if_false]
    exact ih fun q hq => h q (List.mem_cons_of_mem _ hq)

/-- str.translate preserves the length of the string. -/
theorem translateStr_length (tbl : List (Char × Char)) (s : String) :
    (translateStr tbl s).length = s.length := by
  show (s.data.map (trChar tbl)).length = s.data.length
  simp

/-- Every key of str.maketrans(src, dst) is a character of src. -/
theorem mkTable_key_mem {src dst : String} {p : Char × Char}
    (h : p ∈ mkTable src dst) : p.1 ∈ src.data :=
  (List.of_mem_zip h).1

/-- The translation-table cache after initialisation holds exactly the
bold and italic tables, in source order (both font alphabets have the
required length 62). -/
theorem TRANSLATION_TABLES_eq :
    TRANSLATION_TABLES =
      [("bold", mkTable NORMAL boldChars), ("italic", mkTable NORMAL italicChars)] := by
  decide

/-- A successful cache lookup is the bold table or the italic table. -/
theorem lookupTable_TT {f : String} {tbl : List (Char × Char)}
    (h : lookupTable TRANSLATION_TABLES f = some tbl) :
    (f = "bold" ∧ tbl = mkTable NORMAL boldChars) ∨
    (f = "italic" ∧ tbl = mkTable NORMAL italicChars) := by
  rw [TRANSLATION_TABLES_eq] at h
  by_cases h1 : ("bold" : String) = f
  · left
    refine ⟨h1.symm, ?_⟩
    simp only [lookupTable, h1, if_true] at h
    exact (Option.some.inj h).symm
  · by_cases h2 : ("italic" : String) = f
    · right
      refine ⟨h2.symm, ?_⟩
      simp only [lookupTable, h1, h2, if_true, if_false] at h
      exact (Option.some.inj h).symm
    · simp [lookupTable, h1, h2] at h

/-- apply_font on a font of the table cache is translation by its table. -/
theorem apply_font_of_lookup {f : String} {tbl : List (Char × Char)}
    (h : lookupTable TRANSLATION_TABLES f = some tbl) (s : String) :
    apply_font s f = translateStr tbl s := by
  rcases lookupTable_TT h with ⟨hf, _⟩ | ⟨hf, _⟩ <;> subst hf <;>
    simp [apply_font, h]

/-! ### Lemmas about the cache state machine -/

/-- The cache after an apply_font call is the initialised cache when the
call started from the empty cache, and is otherwise untouched. -/
theorem apply_font_st_snd (st : Tables) (text f : String) :
    (apply_font_st st text f).2 = tablesAfter st := by
  unfold apply_font_st
  split
  · rfl
  · split <;> rfl

/-- A render step leaves the cache empty-or-initialised. -/
theorem apply_style_st_snd (st : Tables) (text ty : String) (t : StyleTemplate) :
    (apply_style_st st text ty t).2 = st ∨
      (apply_style_st st text ty t).2 = tablesAfter st := by
  unfold apply_style_st
  split_ifs <;> cases t <;> simp [apply_font_st_snd]

/-- The initialised cache is nonempty, so re-checking it is a no-op. -/
theorem tablesAfter_TT : tablesAfter TRANSLATION_TABLES = TRANSLATION_TABLES := by
  decide

/-- Any cache state reachable from process start is the empty cache or the
initialised cache. -/
theorem reachable_tables_cases {st : Tables} (h : ReachableTables st) :
    st = [] ∨ st = TRANSLATION_TABLES := by
  induction h with
  | init => exact Or.inl rfl
  | step text ty t hst ih =>
    rcases apply_style_st_snd _ text ty t with h2 | h2 <;> rw [h2]
    · exact ih
    · rcases ih with h3 | h3 <;> subst h3
      · exact Or.inr rfl
      · rw [tablesAfter_TT]
        exact Or.inr rfl

/-- On any reachable cache state the initialisation check yields the
initialised cache. -/
theorem tablesAfter_reachable {st : Tables} (h : ReachableTables st) :
    tablesAfter st = TRANSLATION_TABLES := by
  rcases reachable_tables_cases h with h1 | h1 <;> subst h1
  · rfl
  · exact tablesAfter_TT

/-- On a reachable cache state the stateful apply_font returns the pure
apply_font result. -/
theorem apply_font_st_fst {st : Tables}
    (h : tablesAfter st = TRANSLATION_TABLES) (text f : String) :
    (apply_font_st st text f).1 = apply_font text f := by
  unfold apply_font_st apply_font
  rw [h]
  split
  · rfl
  · split <;> rfl

/-- On a reachable cache state the stateful apply_style returns the pure
apply_style result. -/
theorem apply_style_st_fst {st : Tables}
    (h : tablesAfter st = TRANSLATION_TABLES) (text ty : String)
    (t : StyleTemplate) :
    (apply_style_st st text ty t).1 = apply_style text ty t := by
  unfold apply_style_st apply_style
  split_ifs <;> cases t <;> simp [apply_font_st_fst h]

/-! ### The claims -/

/-- C1, counterexample: TextStorage.get_text on a fingerprint that was
never produced by store_text returns the empty string, the very value
get_text returns for the legitimately stored empty text — so the not-found
result is not distinct from every legitimately stored value.  (The absent
key differs from the fingerprint of the empty text, third conjunct.) -/
theorem claim1_counterexample :
    get_text (store_text [] "").1 "0000000000000000" = "" ∧
    get_text (store_text [] "").1 (store_text [] "").2 = "" ∧
    (store_text [] "").2 ≠ "0000000000000000" := by
  decide

/-- C1, amended: get_text on an absent fingerprint does not crash and
returns the empty string (the dict .get default); conversely every
non-empty get_text result is a genuinely stored text, so the empty-string
signal is only confusable with a stored empty text. -/
theorem claim1_lookup_absent :
    (∀ (st : Storage) (k : String), dget st k = none → get_text st k = "") ∧
    (∀ (st : Storage) (k : String), get_text st k ≠ "" →
      ∃ v, dget st k = some v ∧ v ≠ "") := by
  constructor
  · intro st k h
    simp [get_text, h]
  · intro st k h
    cases hx : dget st k with
    | none => exact absurd (by simp [get_text, hx]) h
    | some v =>
      refine ⟨v, rfl, ?_⟩
      intro hv
      exact h (by simp [get_text, hx, hv])

/-- C1, witness: the amended theorem applied to the empty storage and a
concrete absent key. -/
theorem claim1_witness :
    (dget [] "absent" = none) ∧ get_text [] "absent" = "" :=
  ⟨rfl, claim1_lookup_absent.1 [] "absent" rfl⟩

/-- C4: store_text is deterministic — the fingerprint returned for a text
does not depend on the storage state, so repeated stores of the identical
text return the identical fingerprint — and the round-trip law holds
unconditionally right after the store (insertion overwrites, so even a
colliding earlier entry cannot break the immediate round trip). -/
theorem claim4_store_roundtrip :
    (∀ (st1 st2 : Storage) (x : String),
        (store_text st1 x).2 = (store_text st2 x).2) ∧
    (∀ (st : Storage) (x : String),
        get_text (store_text st x).1 (store_text st x).2 = x) := by
  constructor
  · intro _ _ _
    rfl
  · intro st x
    show get_text (dinsert (fingerprint x) x st) (fingerprint x) = x
    unfold get_text
    rw [dget_dinsert_self]
    rfl

/-- C10: store_text modifies at most the entry of the stored text's own
fingerprint — every other key's lookup is unchanged — and get_text leaves
the storage state entirely unchanged. -/
theorem claim10_store_frame :
    (∀ (st : Storage) (x k : String), k ≠ (store_text st x).2 →
        get_text (store_text st x).1 k = get_text st k) ∧
    (∀ (st : Storage) (k : String), get_text_st st k = (get_text st k, st)) := by
  constructor
  · intro st x k hk
    show get_text (dinsert (fingerprint x) x st) k = get_text st k
    unfold get_text
    rw [dget_dinsert_ne st (fingerprint x) k x hk]
  · intro st k
    rfl

/-- C10, witness: the frame theorem applied to the empty storage, the
stored text "a" and the concrete unrelated key "zz" (the inequality with
the computed MD5 fingerprint is discharged by evaluation). -/
theorem claim10_witness :
    ("zz" ≠ (store_text [] "a").2) ∧
    get_text (store_text [] "a").1 "zz" = get_text [] "zz" ∧
    get_text_st [] "zz" = (get_text [] "zz", []) :=
  ⟨by decide, claim10_store_frame.1 [] "a" "zz" (by decide),
    claim10_store_frame.2 [] "zz"⟩

/-- C2, counterexample: rendering under a template with two placeholders —
a configuration error in the claim's sense — does not fail closed: Python
raises IndexError inside str.format (modelled as the error result), instead
of returning the name unchanged or a clean configuration-error signal. -/
theorem claim2_counterexample :
    apply_style "Max" "decorative" (.str "\x7b\x7d\x7b\x7d") =
      .error FormatError.indexOutOfRange := by
  decide

/-- C2, amended: an unknown font name fails closed (the name is returned
unchanged); a nonempty template with zero placeholders silently returns
the template itself, dropping the name (no runtime error, but not the name
unchanged either); a template with two or more placeholders raises
IndexError rather than failing closed. -/
theorem claim2_fail_closed_amended :
    (∀ (name f : String), f ≠ "small_caps" →
        lookupTable TRANSLATION_TABLES f = none →
        apply_style name "font" (.str f) = .ok name) ∧
    (∀ (name : String) (t : List Char), braceFree t → t ≠ [] →
        apply_style name "decorative" (.str ⟨t⟩) = .ok ⟨t⟩) ∧
    (∀ (name : String) (pre mid post : List Char), braceFree pre → braceFree mid →
        apply_style name "decorative"
          (.str ⟨pre ++ lbrace :: rbrace :: (mid ++ lbrace :: rbrace :: post)⟩) =
          .error .indexOutOfRange) := by
  refine ⟨?_, ?_, ?_⟩
  · intro name f hsc hl
    by_cases hf : f = ""
    · subst hf
      rfl
    · have ht : truthy (.str f) = true := by simp [truthy, hf]
      simp [apply_style, ht, apply_font, hsc, hl]
  · intro name t hb hne
    have hmk : (⟨t⟩ : String) ≠ "" := fun he => hne (congrArg String.data he)
    have ht : truthy (.str ⟨t⟩) = true := by simp [truthy, hmk]
    simp [apply_style, ht, pyFormat_zero_field name t hb]
  · intro name pre mid post h1 h2
    have hne : pre ++ lbrace :: rbrace :: (mid ++ lbrace :: rbrace :: post) ≠ [] := by
      simp
    have hmk :
        (⟨pre ++ lbrace :: rbrace :: (mid ++ lbrace :: rbrace :: post)⟩ : String) ≠ "" :=
      fun he => hne (congrArg String.data he)
    have ht :
        truthy (.str ⟨pre ++ lbrace :: rbrace :: (mid ++ lbrace :: rbrace :: post)⟩) =
          true := by
      simp [truthy, hmk]
    simp [apply_style, ht, pyFormat_two_fields name pre mid post h1 h2]

/-- C2, witness: the amended theorem applied at an unknown font name, a
placeholder-free template, and a two-placeholder template. -/
theorem claim2_witness :
    (lookupTable TRANSLATION_TABLES "cursive" = none) ∧
    apply_style "Max" "font" (.str "cursive") = .ok "Max" ∧
    apply_style "Max" "decorative" (.str ⟨['a', 'b', 'c']⟩) = .ok ⟨['a', 'b', 'c']⟩ ∧
    apply_style "Max" "decorative"
      (.str ⟨[] ++ lbrace :: rbrace :: ([] ++ lbrace :: rbrace :: [])⟩) =
      .error .indexOutOfRange :=
  ⟨by decide,
   claim2_fail_closed_amended.1 "Max" "cursive" (by decide) (by decide),
   claim2_fail_closed_amended.2.1 "Max" ['a', 'b', 'c'] (by decide) (by decide),
   claim2_fail_closed_amended.2.2 "Max" [] [] [] (by decide) (by decide)⟩

/-- C3, counterexample: for the catalog template with frame character ꧁
and the name "꧁", the rendered output contains the name twice, not exactly
once — the universally quantified "exactly once" fails for names that also
occur in the template frame. -/
theorem claim3_counterexample :
    apply_style "꧁" "decorative" (.str "꧁\x7b\x7d꧂") = .ok "꧁꧁꧂" ∧
    countOccs "꧁".data "꧁꧁꧂".data = 2 := by
  decide

/-- C3, amended: for every name s and every decorative or art template
with exactly one placeholder (brace-free frame around one field), the
output is the frame prefix, then s verbatim, then the frame suffix — s
occurs contiguously at the placeholder's position; it occurs exactly once
whenever s does not also occur overlapping the frame, as in the end-to-end
scenario "Max" with template ꧁...꧂ rendered to ꧁Max꧂. -/
theorem claim3_template_substitution :
    (∀ (s : String) (pre post : List Char), braceFree pre → braceFree post →
        apply_style s "decorative" (.str ⟨pre ++ lbrace :: rbrace :: post⟩) =
          .ok ⟨pre ++ s.data ++ post⟩) ∧
    (∀ (s : String) (pre post : List Char), braceFree pre → braceFree post →
        apply_style s "art" (.str ⟨pre ++ lbrace :: rbrace :: post⟩) =
          .ok ⟨pre ++ s.data ++ post⟩) ∧
    apply_style "Max" "decorative" (.str "꧁\x7b\x7d꧂") = .ok "꧁Max꧂" ∧
    countOccs "Max".data "꧁Max꧂".data = 1 := by
  refine ⟨?_, ?_, by decide, by decide⟩
  all_goals
    intro s pre post h1 h2
    have hne : pre ++ lbrace :: rbrace :: post ≠ [] := by simp
    have hmk : (⟨pre ++ lbrace :: rbrace :: post⟩ : String) ≠ "" :=
      fun he => hne (congrArg String.data he)
    have ht : truthy (.str ⟨pre ++ lbrace :: rbrace :: post⟩) = true := by
      simp [truthy, hmk]
    simp [apply_style, ht, pyFormat_one_field s pre post h1 h2]

/-- C3, witness: the amended theorem applied to the name "Royal" and the
second catalog template (frame ⫷...⫸). -/
theorem claim3_witness :
    braceFree ['⫷'] ∧ braceFree ['⫸'] ∧
    apply_style "Royal" "decorative" (.str ⟨['⫷'] ++ lbrace :: rbrace :: ['⫸']⟩) =
      .ok ⟨['⫷'] ++ "Royal".data ++ ['⫸']⟩ :=
  ⟨by decide, by decide,
    claim3_template_substitution.1 "Royal" ['⫷'] ['⫸'] (by decide) (by decide)⟩

/-- Mapping a function that is the identity on every element of a list is
the identity on the list. -/
theorem list_map_self {f : Char → Char} :
    ∀ l : List Char, (∀ c ∈ l, f c = c) → l.map f = l := by
  intro l
  induction l with
  | nil => intro _; rfl
  | cons c rest ih =>
    intro h
    simp only [List.map_cons, h c (List.mem_cons_self c rest),
      ih fun d hd => h d (List.mem_cons_of_mem _ hd)]

/-- C5: for every font identifier with a defined translation table (bold
and italic) the substitution is injective on the canonical alphabet, and
for every string over the canonical alphabet the rendering has the same
length as the input and translating back through the positionally swapped
table recovers the input exactly. -/
theorem claim5_font_bijective :
    ∀ (f : String) (tbl : List (Char × Char)),
      lookupTable TRANSLATION_TABLES f = some tbl →
      (∀ c ∈ NORMAL.data, ∀ d ∈ NORMAL.data, trChar tbl c = trChar tbl d → c = d) ∧
      ∀ s : String, (∀ c ∈ s.data, c ∈ NORMAL.data) →
        (apply_font s f).length = s.length ∧
        translateStr (invTable tbl) (apply_font s f) = s := by
  intro f tbl h
  have hrender : ∀ s : String, apply_font s f = translateStr tbl s :=
    apply_font_of_lookup h
  have hinj : ∀ c ∈ NORMAL.data, ∀ d ∈ NORMAL.data,
      trChar tbl c = trChar tbl d → c = d := by
    rcases lookupTable_TT h with ⟨_, htbl⟩ | ⟨_, htbl⟩ <;> subst htbl <;> decide
  have hround : ∀ c ∈ NORMAL.data, trChar (invTable tbl) (trChar tbl c) = c := by
    rcases lookupTable_TT h with ⟨_, htbl⟩ | ⟨_, htbl⟩ <;> subst htbl <;> decide
  refine ⟨hinj, ?_⟩
  intro s hs
  rw [hrender]
  refine ⟨translateStr_length tbl s, ?_⟩
  have hmap : (s.data.map (trChar tbl)).map (trChar (invTable tbl)) = s.data := by
    rw [List.map_map]
    exact list_map_self s.data fun c hc => hround c (hs c hc)
  show String.mk ((s.data.map (trChar tbl)).map (trChar (invTable tbl))) = s
  rw [hmap]

/-- C5, witness: the theorem applied to the bold font and the string
"Max", whose characters all lie in the canonical alphabet. -/
theorem claim5_witness :
    (∀ c ∈ NORMAL.data, ∀ d ∈ NORMAL.data,
        trChar (mkTable NORMAL boldChars) c = trChar (mkTable NORMAL boldChars) d →
          c = d) ∧
    (apply_font "Max" "bold").length = "Max".length ∧
    translateStr (invTable (mkTable NORMAL boldChars)) (apply_font "Max" "bold") =
      "Max" :=
  ⟨(claim5_font_bijective "bold" (mkTable NORMAL boldChars) (by decide)).1,
   ((claim5_font_bijective "bold" (mkTable NORMAL boldChars) (by decide)).2
      "Max" (by decide)).1,
   ((claim5_font_bijective "bold" (mkTable NORMAL boldChars) (by decide)).2
      "Max" (by decide)).2⟩

/-- C7: rendering under the mixed style is exactly font rendering followed
by decorative rendering of the result — for apply_style whenever the
decoration template is nonempty (an empty template is falsy and skips the
decorative branch), and for _generate_styled_text unconditionally; in the
end-to-end scenario, Max under (bold, ꧁...꧂) is the frame around the bold
rendering of Max. -/
theorem claim7_mixed_composes :
    (∀ (name f t : String), t ≠ "" →
        apply_style name "mixed" (.pair f t) =
          (apply_style name "font" (.str f)).bind fun ft =>
            apply_style ft "decorative" (.str t)) ∧
    (∀ (name f t : String),
        generate_styled_text name "mixed" (.pair f t) =
          (generate_styled_text name "fonts" (.str f)).bind fun ft =>
            generate_styled_text ft "decorative" (.str t)) ∧
    apply_style "Max" "mixed" (.pair "bold" "꧁\x7b\x7d꧂") =
      .ok ("꧁" ++ apply_font "Max" "bold" ++ "꧂") := by
  refine ⟨?_, ?_, by decide⟩
  · intro name f t ht
    have htr : truthy (.str t) = true := by simp [truthy, ht]
    by_cases hf : f = ""
    · subst hf
      have hl : lookupTable TRANSLATION_TABLES "" = none := by decide
      have hfe : apply_font name "" = name := by simp [apply_font, hl]
      simp [apply_style, truthy, htr, hfe, ht, Except.bind]
    · have hftr : truthy (.str f) = true := by simp [truthy, hf]
      simp [apply_style, truthy, htr, hftr, ht, hf, Except.bind]
  · intro name f t
    rfl

/-- C7, witness: the composition law applied at the end-to-end scenario
inputs. -/
theorem claim7_witness :
    ("꧁\x7b\x7d꧂" ≠ "") ∧
    apply_style "Max" "mixed" (.pair "bold" "꧁\x7b\x7d꧂") =
      (apply_style "Max" "font" (.str "bold")).bind fun ft =>
        apply_style ft "decorative" (.str "꧁\x7b\x7d꧂") :=
  ⟨by decide, claim7_mixed_composes.1 "Max" "bold" "꧁\x7b\x7d꧂" (by decide)⟩

/-- C8: for every font name (known, unknown, or small_caps) rendering
preserves the length of the string, and every character outside the
canonical alphabet passes through unchanged at its position. -/
theorem claim8_passthrough :
    ∀ (font s : String),
      (apply_font s font).length = s.length ∧
      ∀ (i : Nat) (c : Char), s.data[i]? = some c → c ∉ NORMAL.data →
        (apply_font s font).data[i]? = some c := by
  intro font s
  by_cases hsc : font = "small_caps"
  · subst hsc
    refine ⟨translateStr_length _ s, ?_⟩
    intro i c hi hc
    show (s.data.map (trChar SMALL_CAPS_FONT))[i]? = some c
    rw [List.getElem?_map, hi]
    have hkeys : ∀ p ∈ SMALL_CAPS_FONT, p.1 ≠ c :=
      fun p hp he => hc (he ▸ mkTable_key_mem hp)
    simp [trChar_eq_self hkeys]
  · cases hl : lookupTable TRANSLATION_TABLES font with
    | some tbl =>
      have hren : apply_font s font = translateStr tbl s := apply_font_of_lookup hl s
      rw [hren]
      refine ⟨translateStr_length _ s, ?_⟩
      intro i c hi hc
      show (s.data.map (trChar tbl))[i]? = some c
      rw [List.getElem?_map, hi]
      have hkeys : ∀ p ∈ tbl, p.1 ≠ c := by
        rcases lookupTable_TT hl with ⟨_, htbl⟩ | ⟨_, htbl⟩ <;> subst htbl <;>
          exact fun p hp he => hc (he ▸ mkTable_key_mem hp)
      simp [trChar_eq_self hkeys]
    | none =>
      have hren : apply_font s font = s := by simp [apply_font, hsc, hl]
      rw [hren]
      exact ⟨rfl, fun i c hi _ => hi⟩

/-- C8, witness: the theorem applied to the bold font and "Max!", whose
exclamation mark lies outside the canonical alphabet at index 3. -/
theorem claim8_witness :
    ("Max!".data[3]? = some '!') ∧ ('!' ∉ NORMAL.data) ∧
    (apply_font "Max!" "bold").length = "Max!".length ∧
    (apply_font "Max!" "bold").data[3]? = some '!' :=
  ⟨by decide, by decide, (claim8_passthrough "bold" "Max!").1,
    (claim8_passthrough "bold" "Max!").2 3 '!' (by decide) (by decide)⟩

/-- C9: rendering is deterministic and referentially transparent — on any
two table-cache states reachable by any sequences of prior renders, the
same (text, style) renders to the identical result, and that result is the
pure apply_style function of the inputs alone. -/
theorem claim9_render_pure :
    ∀ st1 st2 : Tables, ReachableTables st1 → ReachableTables st2 →
      ∀ (text style_type : String) (t : StyleTemplate),
        (apply_style_st st1 text style_type t).1 =
          (apply_style_st st2 text style_type t).1 ∧
        (apply_style_st st1 text style_type t).1 = apply_style text style_type t := by
  intro st1 st2 h1 h2 text ty t
  have e1 := apply_style_st_fst (tablesAfter_reachable h1) text ty t
  have e2 := apply_style_st_fst (tablesAfter_reachable h2) text ty t
  exact ⟨e1.trans e2.symm, e1⟩

/-- C9, witness: the theorem applied to the initial empty cache and the
cache left by a prior render of another name. -/
theorem claim9_witness :
    (apply_style_st [] "Max" "font" (.str "bold")).1 =
      (apply_style_st (apply_style_st [] "Ana" "font" (.str "italic")).2
        "Max" "font" (.str "bold")).1 ∧
    (apply_style_st [] "Max" "font" (.str "bold")).1 =
      apply_style "Max" "font" (.str "bold") :=
  claim9_render_pure [] _ ReachableTables.init
    (ReachableTables.step "Ana" "font" (.str "italic") ReachableTables.init)
    "Max" "font" (.str "bold")

/-- C6, counterexample: after viewing page 3 of a 23-item category (which
stores current_page = 3), requesting page 0 shows page 3, not page 1 —
a requested page of exactly 0 is falsy in Python and falls back to the
stored current page instead of being clamped to 1. -/
theorem claim6_counterexample :
    (show_styles_page (List.range 23)
        ((show_styles_page (List.range 23) none 3).2) 0).1.1 = 3 ∧
    ¬(show_styles_page (List.range 23)
        ((show_styles_page (List.range 23) none 3).2) 0).1.1 = 1 := by
  decide

/-- C6, amended: the page count is ceil(count/10) with minimum 1; an empty
catalog yields an empty slice on every request; a negative requested page
clamps to 1 and a request above the last page clamps to the last page; the
displayed page always lies between 1 and the page count; a requested page
of exactly 0 is treated as "no page given" and behaves like requesting the
stored current page (so it shows page 1 only on a fresh session); and the
23-item scenario: 3 pages, page 3 holds exactly 3 items, page 99 clamps to
3, and on a fresh session page 0 and page -1 both show page 1. -/
theorem claim6_pagination_amended :
    (∀ total : Nat, 1 ≤ total_pages_calc total ∧
        max total 1 ≤ ITEMS_PER_PAGE * total_pages_calc total ∧
        ITEMS_PER_PAGE * (total_pages_calc total - 1) < max total 1) ∧
    (∀ (stored : Option Int) (page : Int),
        (show_styles_page ([] : List Nat) stored page).1.2 = []) ∧
    (∀ (styles : List Nat) (stored : Option Int) (page : Int), page < 0 →
        (show_styles_page styles stored page).1.1 = 1) ∧
    (∀ (styles : List Nat) (stored : Option Int) (page : Int),
        (total_pages_calc styles.length : Int) < page →
        (show_styles_page styles stored page).1.1 = total_pages_calc styles.length) ∧
    (∀ (styles : List Nat) (stored : Option Int) (page : Int),
        1 ≤ (show_styles_page styles stored page).1.1 ∧
        (show_styles_page styles stored page).1.1 ≤ total_pages_calc styles.length) ∧
    (∀ stored : Int, (show_styles_page (List.range 23) (some stored) 0).1.1 =
        (show_styles_page (List.range 23) (some stored) stored).1.1) ∧
    (total_pages_calc 0 = 1 ∧ total_pages_calc 23 = 3 ∧
      (show_styles_page (List.range 23) none 3).1.2.length = 3 ∧
      (show_styles_page (List.range 23) none 99).1.1 = 3 ∧
      (show_styles_page (List.range 23) none 0).1.1 = 1 ∧
      (show_styles_page (List.range 23) none (-1)).1.1 = 1) := by
  refine ⟨?_, ?_, ?_, ?_, ?_, ?_, by decide⟩
  · intro total
    unfold total_pages_calc ITEMS_PER_PAGE
    omega
  · intro stored page
    simp [show_styles_page]
  · intro styles stored page hp
    have hne : page ≠ 0 := by omega
    simp only [show_styles_page, if_pos hne]
    have h1 : 1 ≤ total_pages_calc styles.length := le_max_left _ _
    omega
  · intro styles stored page hp
    have h1 : 1 ≤ total_pages_calc styles.length := le_max_left _ _
    have hne : page ≠ 0 := by omega
    simp only [show_styles_page, if_pos hne]
    omega
  · intro styles stored page
    have h1 : 1 ≤ total_pages_calc styles.length := le_max_left _ _
    by_cases hne : page = 0
    · simp only [show_styles_page, hne]
      omega
    · simp only [show_styles_page, if_pos hne]
      omega
  · intro stored
    by_cases hst : stored = 0
    · subst hst
      rfl
    · simp [show_styles_page, hst]

/-- C6, witness: the amended clamping facts applied at concrete pages -7
and 12 of the 23-item catalog. -/
theorem claim6_witness :
    ((-7 : Int) < 0) ∧ (show_styles_page (List.range 23) none (-7)).1.1 = 1 ∧
    ((total_pages_calc (List.range 23).length : Int) < 12) ∧
    (show_styles_page (List.range 23) none 12).1.1 =
      total_pages_calc (List.range 23).length :=
  ⟨by decide, claim6_pagination_amended.2.2.1 (List.range 23) none (-7) (by decide),
   by decide, claim6_pagination_amended.2.2.2.1 (List.range 23) none 12 (by decide)⟩

end StyleBot
